import Mathlib

/-!
Verification development for the pushbullet notifier client (`push.py`).

The source is a single Python file.  We shallow-embed the pure core of each
function that the specification's claims talk about:

* JSON values are modelled by the mutual inductive `Json` / `JsonList` /
  `JsonFields` (Python `None` is `Json.null`; a JSON object decodes to a
  Python `dict`, duplicate keys last-wins, which `JsonFields.getLast`
  reproduces).  JSON numbers are modelled as exact rationals; the claims
  under verification never depend on binary floating-point rounding.
* The module-level mutable sets `received_timestamps` and `processed_ids`
  become explicit state that is threaded through the step functions.
* Python's `processed_ids.remove(next(iter(processed_ids)))` removes an
  element whose choice the language does not specify; the embedding takes a
  choice oracle `pick : List Json → Nat` and removes the element at index
  `pick l % l.length`, so theorems quantified over `pick` hold for every
  possible choice the interpreter could make.
* Fallible code returns `Option` / `Except`; every Python `except` branch
  that swallows an exception becomes a `none` result.
-/

namespace PushNotifier

/-! ## JSON values (results of `json.loads`) -/

mutual

inductive Json where
  | null
  | bool (b : Bool)
  | num (q : Rat)
  | str (s : String)
  | arr (xs : JsonList)
  | obj (fs : JsonFields)
deriving DecidableEq

inductive JsonList where
  | nil
  | cons (hd : Json) (tl : JsonList)
deriving DecidableEq

inductive JsonFields where
  | nil
  | cons (k : String) (v : Json) (tl : JsonFields)
deriving DecidableEq

end

/-- Last binding for a key, as in a Python dict built by `json.loads`
(later duplicate keys overwrite earlier ones). -/
def JsonFields.getLast : JsonFields → String → Option Json
  | .nil, _ => none
  | .cons k' v tl, k =>
    match JsonFields.getLast tl k with
    | some r => some r
    | none => if k' = k then some v else none

/-- Python `d.get(k, default)` on a decoded JSON object. -/
def pyGetD (fs : JsonFields) (k : String) (d : Json) : Json :=
  (fs.getLast k).getD d

/-- Python `d.get(k)` (default `None`). -/
def pyGet (fs : JsonFields) (k : String) : Json :=
  pyGetD fs k Json.null

/-- Python truthiness of a decoded JSON value. -/
def truthy : Json → Bool
  | .null => false
  | .bool b => b
  | .num q => q != 0
  | .str s => s != ""
  | .arr .nil => false
  | .arr (.cons _ _) => true
  | .obj .nil => false
  | .obj (.cons _ _ _) => true

/-- Convert a decoded JSON array to a Lean list of its elements. -/
def JsonList.toList : JsonList → List Json
  | .nil => []
  | .cons x tl => x :: tl.toList

/-! ## `process_message` (push.py lines 133-145)

```python
def process_message(message_id, content, timestamp, source=""):
    if message_id in processed_ids:
        return
    title = "Pushbullet" if not source else f"Pushbullet [{source}]"
    subprocess.run(["notify-send", title, content])
    append_to_cache(content, timestamp, source)
    processed_ids.add(message_id)
    if len(processed_ids) > MAX_PROCESSED_IDS:
        processed_ids.remove(next(iter(processed_ids)))
```

A call carries exactly the four arguments of `process_message`; `id` is
`push.get("iden")` (a JSON value, `null` when absent), `timestamp` is the
`created` JSON value.  A delivery to the sink (the `notify-send` dispatch
plus the cache append) is recorded by emitting the call. -/

def MAX_PROCESSED_IDS : Nat := 1000

structure Call where
  id : Json
  content : Json
  timestamp : Json
  source : String
deriving DecidableEq

structure ProcState where
  pids : List Json
deriving DecidableEq

/-- Lines 143-145: `if len(processed_ids) > MAX_PROCESSED_IDS:
processed_ids.remove(next(iter(processed_ids)))` — `pick` is the eviction
choice oracle (see the module docstring). -/
def evictIfOver (pick : List Json → Nat) (l : List Json) : List Json :=
  if MAX_PROCESSED_IDS < l.length then l.eraseIdx (pick l % l.length) else l

/-- One `process_message` call: returns the new `processed_ids` state and
`some call` iff the sink was invoked. -/
def procStep (pick : List Json → Nat) (s : ProcState) (c : Call) :
    ProcState × Option Call :=
  if c.id ∈ s.pids then (s, none)
  else (⟨evictIfOver pick (c.id :: s.pids)⟩, some c)

/-- Run a sequence of `process_message` calls (arriving from either the
stream path or the fetch path, in any interleaving), collecting the
deliveries made to the sink. -/
def runProc (pick : List Json → Nat) : ProcState → List Call → ProcState × List Call
  | s, [] => (s, [])
  | s, c :: cs =>
    let r := procStep pick s c
    let rest := runProc pick r.1 cs
    (rest.1, r.2.toList ++ rest.2)

/-- Number of sink deliveries whose id is `x`. -/
def countDelivered (x : Json) (out : List Call) : Nat :=
  (out.filter fun c => c.id = x).length

/-! ## The stream-side timestamp window (push.py lines 35, 121-126)

```python
received_timestamps = set()
...
        created = data.get("created", 0)
        if created and created in received_timestamps:
            return None  # Ignore duplicate messages
        received_timestamps.add(created)
```

`received_timestamps` is a Python set accumulating the `created` values of
admitted messages; the source never removes anything from it.  Set order is
irrelevant because the set is only ever tested for membership, so a
duplicate-free list models it. -/

/-- `received_timestamps.add(created)` (set add: idempotent). -/
def tsInsert (ts : List Json) (x : Json) : List Json :=
  if x ∈ ts then ts else x :: ts

/-- The stream gate of `read_frame`: `True` iff the decoded message is
admitted, i.e. unless `created` is truthy and already in the set. -/
def gateAdmits (ts : List Json) (created : Json) : Bool :=
  !(truthy created && created ∈ ts)

/-- A run of the stream admission gate over the fresh distinct nonzero
timestamps `1, 2, …, n` (each admitted and inserted). -/
def pumpTimestamps : Nat → List Json
  | 0 => []
  | n + 1 => tsInsert (pumpTimestamps n) (Json.num ((n : Rat) + 1))

/-! ## The connection supervisor's failure path (push.py lines 207-260)

```python
def main_loop():
    backoff_time = RECONNECT_DELAY
    max_backoff = 300  # 5 minutes
    ...
    while True:
        try:
            ...
        except KeyboardInterrupt:
            ...
            break
        except Exception as e:
            logging.error(f"Connection error: {str(e)}")
            ...
            if backoff_time >= max_backoff:
                logging.error("Maximum reconnection attempts reached. Exiting service.")
                sys.exit(1)
            time.sleep(backoff_time)
            backoff_time = min(backoff_time * 2, max_backoff)
```

On each consecutive connection failure the handler first tests
`backoff_time >= max_backoff` and leaves the loop if it holds (the module
never imports `sys`, so `sys.exit(1)` actually raises `NameError`, which
propagates out of `main_loop` — either way the loop and the process
terminate there), otherwise it sleeps and doubles the backoff, capped at
300. -/

def RECONNECT_DELAY : Nat := 5

def MAX_BACKOFF : Nat := 300

inductive SupOutcome where
  | exited
  | running (backoff : Nat)
deriving DecidableEq

/-- The `except Exception` branch of `main_loop`, entered with the current
`backoff_time`: leave the loop if the cap is reached, else continue with the
doubled (capped) backoff. -/
def onConnectFailure (b : Nat) : SupOutcome :=
  if MAX_BACKOFF ≤ b then .exited else .running (min (b * 2) MAX_BACKOFF)

/-- `n` consecutive connection failures starting from backoff `b`. -/
def consecutiveFailures : Nat → Nat → SupOutcome
  | 0, b => .running b
  | n + 1, b =>
    match onConnectFailure b with
    | .exited => .exited
    | .running b2 => consecutiveFailures n b2

/-! ## Event normalisation (push.py lines 163-177 and 187-205)

Both call sites read the same fields of the raw push record and apply the
same device filter, but format the channel-broadcast source label
differently.  `fstr` models Python f-string interpolation of a decoded
JSON value; the claims only exercise string-valued fields, where it is
exact. -/

def fstr : Json → String
  | .str s => s
  | .null => "None"
  | .bool true => "True"
  | .bool false => "False"
  | .num q => toString q
  | .arr _ => "<list>"
  | .obj _ => "<dict>"

/-- Python `a or b` on decoded JSON values (first truthy operand). -/
def pyOr (a b : Json) : Json :=
  if truthy a then a else b

/-- `push.get("body") or push.get("url") or push.get("file_url") or
"No message"` (lines 167 and 193). -/
def pyOrChain (push : JsonFields) : Json :=
  pyOr (pyGet push "body")
    (pyOr (pyGet push "url")
      (pyOr (pyGet push "file_url") (Json.str "No message")))

/-- The `# Determine source` block of `handle_push_data` (lines 195-203,
stream path): `None` models the `return  # Not for this device` skip. -/
def streamSource (deviceId : String) (push : JsonFields) : Option String :=
  if truthy (pyGetD push "channel_iden" (Json.str "")) then
    some ("Channel: " ++ fstr (pyGetD push "sender_name" (Json.str "Unknown Sender")))
  else if pyGet push "target_device_iden" = Json.str deviceId then
    some ""
  else if pyGet push "target_device_iden" = Json.null then
    some "All Devices"
  else
    none

/-- `handle_push_data` (lines 187-205) up to its `process_message` call:
the call it makes, or `none` when the push is skipped. -/
def handle_push_data (deviceId : String) (push : JsonFields) : Option Call :=
  match streamSource deviceId push with
  | none => none
  | some src =>
    some ⟨pyGet push "iden", pyOrChain push, pyGetD push "created" (Json.num 0), src⟩

/-- The `# Determine source` block inside `fetch_new_pushes` (lines
169-177, fetch path).  Note the channel label format differs from the
stream path's. -/
def fetchSource (deviceId : String) (push : JsonFields) : Option String :=
  if truthy (pyGetD push "channel_iden" (Json.str "")) then
    some (fstr (pyGetD push "sender_name" (Json.str "Unknown Sender")) ++ ": \n"
      ++ fstr (pyGetD push "title" (Json.str "")))
  else if pyGet push "target_device_iden" = Json.str deviceId then
    some ""
  else if pyGet push "target_device_iden" = Json.null then
    some "All Devices"
  else
    none

/-- The fetch-path normalisation of one push (lines 163-179) after the
staleness/active filter: the `process_message` call it makes, or `none`
when the push is targeted at another device. -/
def fetchNormalize (deviceId : String) (push : JsonFields) : Option Call :=
  match fetchSource deviceId push with
  | none => none
  | some src =>
    some ⟨pyGet push "iden", pyOrChain push, pyGetD push "created" (Json.num 0), src⟩

/-- A concrete channel-broadcast push record:
`{"iden": "i", "channel_iden": "c", "sender_name": "S", "title": "T",
"body": "B", "created": 1}`. -/
def demoChannelPush : JsonFields :=
  .cons "iden" (Json.str "i")
    (.cons "channel_iden" (Json.str "c")
      (.cons "sender_name" (Json.str "S")
        (.cons "title" (Json.str "T")
          (.cons "body" (Json.str "B")
            (.cons "created" (Json.num 1) .nil)))))

/-! ## Device filtering and content resolution (C9) -/

/-- A JSON field value that is a text field with content `s`, where an
absent field (Python `None`) counts as the empty text. -/
def strOpt (v : Json) (s : String) : Prop :=
  v = Json.str s ∨ (v = Json.null ∧ s = "")

/-- The spec's content-resolution rule, stated from its words: first
non-empty of `body`, `url`, `file_url`; fallback literal `"No message"`. -/
def firstNonEmpty (b u f : String) : Json :=
  if b ≠ "" then Json.str b
  else if u ≠ "" then Json.str u
  else if f ≠ "" then Json.str f
  else Json.str "No message"

/-- Concrete pushes for the C9 witness: same record targeted at the own
device, at no device, and at another device. -/
def demoPushTo (target : Json) : JsonFields :=
  .cons "iden" (Json.str "abc")
    (.cons "target_device_iden" target
      (.cons "body" (Json.str "hello")
        (.cons "created" (Json.num 100) .nil)))

/-! ## `fetch_new_pushes` (push.py lines 147-184)

```python
def fetch_new_pushes():
    last_timestamp = load_last_timestamp()
    ...
    try:
        with urllib.request.urlopen(request) as response:
            data = json.loads(response.read().decode())
            pushes = data.get("pushes", [])
            new_timestamp = last_timestamp
            for push in sorted(pushes, key=lambda x: x.get("created", 0)):
                created = push.get("created", 0)
                if created <= last_timestamp or not push.get("active", True):
                    continue
                ...   # source determination, possibly `continue`
                process_message(push.get("iden"), message, created, source)
                new_timestamp = max(new_timestamp, created)
            save_last_timestamp(new_timestamp)
    except Exception as e:
        logging.error(f"Error fetching new pushes: {str(e)}")
```

The HTTP layer is external I/O; the embedding takes the decoded `pushes`
batch as input.  `none` models the `except` branch (network error, decode
error, or a `TypeError` from comparing/sorting a non-numeric `created`
value): nothing is delivered there and no watermark is saved.  `some r`
means `save_last_timestamp(r.watermark)` ran. -/

structure FetchResult where
  watermark : Rat
  state : ProcState
  delivered : List Call
deriving DecidableEq

/-- Stable insertion into a list sorted ascending by the `created` key:
an element goes after every element with a key less than or equal to its
own, so equal keys keep their original relative order, as with Python's
stable `sorted`. -/
def insertByCreated (x : Rat × JsonFields) :
    List (Rat × JsonFields) → List (Rat × JsonFields)
  | [] => [x]
  | y :: ys => if y.1 ≤ x.1 then y :: insertByCreated x ys else x :: y :: ys

/-- `sorted(pushes, key=lambda x: x.get("created", 0))` (line 158). -/
def sortByCreated (l : List (Rat × JsonFields)) : List (Rat × JsonFields) :=
  l.foldl (fun acc x => insertByCreated x acc) []

/-- The numeric `created` key of a push in the batch; `none` when the push
is not an object or its `created` value is not a number (both make the
Python code raise inside the `try`, aborting the whole pass). -/
def createdKey : Json → Option (Rat × JsonFields)
  | .obj fs =>
    match pyGetD fs "created" (Json.num 0) with
    | .num q => some (q, fs)
    | _ => none
  | _ => none

/-- One iteration of the `for push in sorted(...)` loop body. -/
def fetchStep (deviceId : String) (pick : List Json → Nat) (lastTs : Rat)
    (acc : Rat × ProcState × List Call) (p : Rat × JsonFields) :
    Rat × ProcState × List Call :=
  if p.1 ≤ lastTs ∨ truthy (pyGetD p.2 "active" (Json.bool true)) = false then acc
  else
    match fetchNormalize deviceId p.2 with
    | none => acc
    | some call =>
      let r := procStep pick acc.2.1 call
      (max acc.1 p.1, r.1, acc.2.2 ++ r.2.toList)

/-- The pure core of `fetch_new_pushes`, given the loaded watermark
`lastTs` and the decoded batch. -/
def fetch_new_pushes (deviceId : String) (pick : List Json → Nat)
    (lastTs : Rat) (pushes : List Json) (s : ProcState) : Option FetchResult :=
  match pushes.mapM createdKey with
  | none => none
  | some ps =>
    let r := (sortByCreated ps).foldl (fetchStep deviceId pick lastTs) (lastTs, s, [])
    some ⟨r.1, r.2.1, r.2.2⟩

/-! ## Sink failure propagation (C10)

`process_message` (lines 133-145) performs its two sink calls —
`subprocess.run(["notify-send", title, content])` and
`append_to_cache(content, timestamp, source)` — with no `try`/`except`
around them, and only adds the id to `processed_ids` afterwards.  On the
stream path the nearest handler is `main_loop`'s `except Exception`
(line 250), which logs `"Connection error: ..."`, closes the socket
(lines 252-255), and runs the backoff branch (lines 256-260). -/

/-- `process_message` with fallible sink calls.  `notifyExc` / `appendExc`
are the exceptions the notification dispatch and the cache append raise
(`none` = success).  An `.error (e, s)` result is an exception `e`
propagating out of `process_message` with the global `processed_ids` still
`s` (the `processed_ids.add` on line 141 never ran). -/
def procStepExc (notifyExc appendExc : Option String)
    (pick : List Json → Nat) (s : ProcState) (c : Call) :
    Except (String × ProcState) (ProcState × Option Call) :=
  if c.id ∈ s.pids then .ok (s, none)
  else
    match notifyExc with
    | some e => .error (e, s)
    | none =>
      match appendExc with
      | some e => .error (e, s)
      | none => .ok (⟨evictIfOver pick (c.id :: s.pids)⟩, some c)

/-- What `main_loop` does with the outcome of one inner-loop body run. -/
inductive LoopStep where
  | continueConnected
  | reconnectAfterBackoff (newBackoff : Nat)
  | exitLoop
deriving DecidableEq

/-- Lines 222-260: an exception escaping the inner loop body is caught by
`except Exception`, the socket is closed, and the backoff branch runs; no
exception means the connected loop just continues. -/
def superviseBody {α : Type} (backoff : Nat)
    (r : Except (String × ProcState) α) : LoopStep :=
  match r with
  | .ok _ => .continueConnected
  | .error _ =>
    match onConnectFailure backoff with
    | .exited => .exitLoop
    | .running b2 => .reconnectAfterBackoff b2

/-! ## `fetch_new_pushes` with fallible sinks

The loop body of `fetch_new_pushes` calls `process_message` inside the
function's own `try` (lines 152-182), whose `except Exception` on line 183
catches every exception the pass raises — including an exception from a
sink call inside `process_message` — logs it, and returns normally with
no watermark saved.  `notifyExc` / `appendExc` are the sink-failure
oracles of `procStepExc`. -/

/-- One iteration of the `for` loop with fallible sinks: `.error` is an
exception escaping the loop body into the `try` (the sink error, carrying
the unchanged `processed_ids` state). -/
def fetchStepExc (notifyExc appendExc : Option String) (deviceId : String)
    (pick : List Json → Nat) (lastTs : Rat)
    (acc : Rat × ProcState × List Call) (p : Rat × JsonFields) :
    Except (String × ProcState) (Rat × ProcState × List Call) :=
  if p.1 ≤ lastTs ∨ truthy (pyGetD p.2 "active" (Json.bool true)) = false then .ok acc
  else
    match fetchNormalize deviceId p.2 with
    | none => .ok acc
    | some call =>
      match procStepExc notifyExc appendExc pick acc.2.1 call with
      | .error err => .error err
      | .ok r => .ok (max acc.1 p.1, r.1, acc.2.2 ++ r.2.toList)

/-- The `for` loop with fallible sinks: the first exception aborts the
loop and propagates into the `try`. -/
def fetchRunExc (notifyExc appendExc : Option String) (deviceId : String)
    (pick : List Json → Nat) (lastTs : Rat) :
    List (Rat × JsonFields) → Rat × ProcState × List Call →
    Except (String × ProcState) (Rat × ProcState × List Call)
  | [], acc => .ok acc
  | p :: ps, acc =>
    match fetchStepExc notifyExc appendExc deviceId pick lastTs acc p with
    | .error err => .error err
    | .ok acc2 => fetchRunExc notifyExc appendExc deviceId pick lastTs ps acc2

/-- The body of `fetch_new_pushes`' `try` (lines 152-182) with fallible
sinks: `.error` is an exception raised inside the `try` (a sink error, or
the `TypeError` from sorting/comparing a non-numeric `created`). -/
def fetchTryBody (notifyExc appendExc : Option String) (deviceId : String)
    (pick : List Json → Nat) (lastTs : Rat) (pushes : List Json)
    (s : ProcState) : Except (String × ProcState) FetchResult :=
  match pushes.mapM createdKey with
  | none => .error ("TypeError: created not comparable", s)
  | some ps =>
    match fetchRunExc notifyExc appendExc deviceId pick lastTs (sortByCreated ps) (lastTs, s, []) with
    | .error err => .error err
    | .ok r => .ok ⟨r.1, r.2.1, r.2.2⟩

/-- `fetch_new_pushes` (lines 147-184) with fallible sinks: the `except
Exception` on line 183 catches whatever the `try` body raises, so the call
always returns normally; `none` means the pass aborted and saved nothing. -/
def fetch_new_pushes_exc (notifyExc appendExc : Option String)
    (deviceId : String) (pick : List Json → Nat) (lastTs : Rat)
    (pushes : List Json) (s : ProcState) : Option FetchResult :=
  match fetchTryBody notifyExc appendExc deviceId pick lastTs pushes s with
  | .error _ => none
  | .ok r => some r

/-! ## UTF-8 decoding with `errors="ignore"` (line 119)

`payload.decode("utf-8", errors="ignore")` never raises: well-formed
sequences decode, ill-formed bytes are dropped.  The model is exact on
ASCII and on well-formed multibyte input; on ill-formed multibyte input it
drops the offending lead byte and continues, which can differ from
CPython's error handler in how many bytes are skipped — no claim depends
on that. -/

def utf8IgnoreGo : Nat → List Nat → List Char
  | 0, _ => []
  | _, [] => []
  | fuel + 1, b :: rest =>
    if b < 0x80 then Char.ofNat b :: utf8IgnoreGo fuel rest
    else if b < 0xC2 then utf8IgnoreGo fuel rest
    else if b < 0xE0 then
      match rest with
      | c1 :: r =>
        if 0x80 ≤ c1 ∧ c1 < 0xC0 then
          Char.ofNat ((b - 0xC0) * 64 + (c1 - 0x80)) :: utf8IgnoreGo fuel r
        else utf8IgnoreGo fuel rest
      | [] => []
    else if b < 0xF0 then
      match rest with
      | c1 :: c2 :: r =>
        if (0x80 ≤ c1 ∧ c1 < 0xC0) ∧ (0x80 ≤ c2 ∧ c2 < 0xC0)
            ∧ 0x800 ≤ (b - 0xE0) * 4096 + (c1 - 0x80) * 64 + (c2 - 0x80)
            ∧ ¬(0xD800 ≤ (b - 0xE0) * 4096 + (c1 - 0x80) * 64 + (c2 - 0x80)
                ∧ (b - 0xE0) * 4096 + (c1 - 0x80) * 64 + (c2 - 0x80) < 0xE000) then
          Char.ofNat ((b - 0xE0) * 4096 + (c1 - 0x80) * 64 + (c2 - 0x80))
            :: utf8IgnoreGo fuel r
        else utf8IgnoreGo fuel rest
      | _ => utf8IgnoreGo fuel rest
    else if b < 0xF5 then
      match rest with
      | c1 :: c2 :: c3 :: r =>
        if (0x80 ≤ c1 ∧ c1 < 0xC0) ∧ (0x80 ≤ c2 ∧ c2 < 0xC0) ∧ (0x80 ≤ c3 ∧ c3 < 0xC0)
            ∧ 0x10000 ≤ (b - 0xF0) * 262144 + (c1 - 0x80) * 4096
                + (c2 - 0x80) * 64 + (c3 - 0x80)
            ∧ (b - 0xF0) * 262144 + (c1 - 0x80) * 4096
                + (c2 - 0x80) * 64 + (c3 - 0x80) < 0x110000 then
          Char.ofNat ((b - 0xF0) * 262144 + (c1 - 0x80) * 4096
              + (c2 - 0x80) * 64 + (c3 - 0x80))
            :: utf8IgnoreGo fuel r
        else utf8IgnoreGo fuel rest
      | _ => utf8IgnoreGo fuel rest
    else utf8IgnoreGo fuel rest

/-- Each decoding step consumes at least one byte, so the input length is
enough fuel: the fuel never runs out before the input does. -/
def utf8Ignore (l : List Nat) : List Char :=
  utf8IgnoreGo l.length l

/-! ## A JSON parser modelling `json.loads`

Exceptions from `json.loads` become `none`.  The grammar is RFC 8259 JSON
(`json.loads`' defaults additionally accept `NaN`/`Infinity`, which this
model treats as a parse failure; no claim involves them).  Numbers are
parsed exactly into rationals; `\uXXXX` escapes outside the surrogate
range decode to the corresponding character. -/

def skipWs : List Char → List Char
  | [] => []
  | c :: r => if c = ' ' ∨ c = '\t' ∨ c = '\n' ∨ c = '\r' then skipWs r else c :: r

def takeDigits : List Char → List Char × List Char
  | [] => ([], [])
  | c :: r =>
    if c.isDigit then
      let p := takeDigits r
      (c :: p.1, p.2)
    else ([], c :: r)

def digitsToNat (ds : List Char) : Nat :=
  ds.foldl (fun a c => a * 10 + (c.toNat - 48)) 0

/-- Assemble a JSON number from sign, integer digits, fraction digits and
exponent: `± intfrac * 10 ^ (exp - |frac|)` as an exact rational. -/
def mkJsonNum (neg : Bool) (ids fds : List Char) (ex : Int) : Rat :=
  let m : Int := (digitsToNat (ids ++ fds) : Int) * (if neg then -1 else 1)
  let scale : Int := ex - (fds.length : Int)
  if 0 ≤ scale then (m * (10 : Int) ^ scale.toNat : Int)
  else mkRat m ((10 : Nat) ^ (-scale).toNat)

/-- The optional fraction part `.digits` (at least one digit required when
the dot is present). -/
def parseFrac (s : List Char) : Option (List Char × List Char) :=
  match s with
  | '.' :: r1 =>
    let p := takeDigits r1
    if p.1 = [] then none else some (p.1, p.2)
  | _ => some ([], s)

def parseExpTail (r2 : List Char) : Option (Int × List Char) :=
  let pe : Bool × List Char := match r2 with
    | '-' :: r3 => (true, r3)
    | '+' :: r3 => (false, r3)
    | _ => (false, r2)
  let ed := takeDigits pe.2
  if ed.1 = [] then none
  else some ((if pe.1 then -1 else 1) * (digitsToNat ed.1 : Int), ed.2)

/-- The optional exponent part `e[+-]digits`. -/
def parseExp (s : List Char) : Option (Int × List Char) :=
  match s with
  | 'e' :: r2 => parseExpTail r2
  | 'E' :: r2 => parseExpTail r2
  | _ => some (0, s)

/-- Parse a JSON number (RFC 8259 `number` grammar) from the head of the
input. -/
def parseNum (s : List Char) : Option (Rat × List Char) :=
  let p0 : Bool × List Char := match s with
    | '-' :: r => (true, r)
    | _ => (false, s)
  let ip := takeDigits p0.2
  match ip.1 with
  | [] => none
  | d :: ds =>
    if d = '0' ∧ ds ≠ [] then none
    else
      match parseFrac ip.2 with
      | none => none
      | some (fds, s2) =>
        match parseExp s2 with
        | none => none
        | some (ex, s3) => some (mkJsonNum p0.1 ip.1 fds ex, s3)

def hexDigit (c : Char) : Option Nat :=
  if c.isDigit then some (c.toNat - 48)
  else if 'a' ≤ c ∧ c ≤ 'f' then some (c.toNat - 87)
  else if 'A' ≤ c ∧ c ≤ 'F' then some (c.toNat - 55)
  else none

/-- Parse the body of a JSON string after the opening quote, returning the
content and the input after the closing quote.  Unescaped control
characters are rejected (as `json.loads` does with its default
`strict=True`); `\uXXXX` in the surrogate range is out of the model
(Lean `Char` has no surrogates; no claim uses such payloads). -/
def parseStringGo : Nat → List Char → Option (List Char × List Char)
  | 0, _ => none
  | _, [] => none
  | fuel + 1, s =>
    match s with
    | [] => none
    | '"' :: r => some ([], r)
    | '\\' :: e :: r =>
      match e with
      | '"' => (parseStringGo fuel r).map fun p => ('"' :: p.1, p.2)
      | '\\' => (parseStringGo fuel r).map fun p => ('\\' :: p.1, p.2)
      | '/' => (parseStringGo fuel r).map fun p => ('/' :: p.1, p.2)
      | 'b' => (parseStringGo fuel r).map fun p => (Char.ofNat 8 :: p.1, p.2)
      | 'f' => (parseStringGo fuel r).map fun p => (Char.ofNat 12 :: p.1, p.2)
      | 'n' => (parseStringGo fuel r).map fun p => ('\n' :: p.1, p.2)
      | 'r' => (parseStringGo fuel r).map fun p => (Char.ofNat 13 :: p.1, p.2)
      | 't' => (parseStringGo fuel r).map fun p => ('\t' :: p.1, p.2)
      | 'u' =>
        match r with
        | h1 :: h2 :: h3 :: h4 :: r2 =>
          match hexDigit h1, hexDigit h2, hexDigit h3, hexDigit h4 with
          | some a, some b, some c, some d =>
            (parseStringGo fuel r2).map fun p =>
              (Char.ofNat (a * 4096 + b * 256 + c * 16 + d) :: p.1, p.2)
          | _, _, _, _ => none
        | _ => none
      | _ => none
    | c :: r =>
      if c.toNat < 0x20 then none
      else (parseStringGo fuel r).map fun p => (c :: p.1, p.2)

/-- Each step consumes at least one character, so the input length is
enough fuel. -/
def parseStringBody (s : List Char) : Option (List Char × List Char) :=
  parseStringGo s.length s

mutual

def parseVal : Nat → List Char → Option (Json × List Char)
  | 0, _ => none
  | fuel + 1, s =>
    match skipWs s with
    | [] => none
    | c :: r =>
      if c = 'n' then
        match r with
        | 'u' :: 'l' :: 'l' :: r2 => some (.null, r2)
        | _ => none
      else if c = 't' then
        match r with
        | 'r' :: 'u' :: 'e' :: r2 => some (.bool true, r2)
        | _ => none
      else if c = 'f' then
        match r with
        | 'a' :: 'l' :: 's' :: 'e' :: r2 => some (.bool false, r2)
        | _ => none
      else if c = '"' then
        (parseStringBody r).map fun p => (.str (String.mk p.1), p.2)
      else if c = '[' then
        match skipWs r with
        | ']' :: r2 => some (.arr .nil, r2)
        | _ => (parseArrItems fuel r).map fun p => (.arr p.1, p.2)
      else if c = '{' then
        match skipWs r with
        | '}' :: r2 => some (.obj .nil, r2)
        | _ => (parseObjItems fuel r).map fun p => (.obj p.1, p.2)
      else
        (parseNum (c :: r)).map fun p => (.num p.1, p.2)

def parseArrItems : Nat → List Char → Option (JsonList × List Char)
  | 0, _ => none
  | fuel + 1, s =>
    match parseVal fuel s with
    | none => none
    | some (v, r) =>
      match skipWs r with
      | ',' :: r2 => (parseArrItems fuel r2).map fun p => (.cons v p.1, p.2)
      | ']' :: r2 => some (.cons v .nil, r2)
      | _ => none

def parseObjItems : Nat → List Char → Option (JsonFields × List Char)
  | 0, _ => none
  | fuel + 1, s =>
    match skipWs s with
    | '"' :: r =>
      match parseStringBody r with
      | none => none
      | some (k, r1) =>
        match skipWs r1 with
        | ':' :: r2 =>
          match parseVal fuel r2 with
          | none => none
          | some (v, r3) =>
            match skipWs r3 with
            | ',' :: r4 => (parseObjItems fuel r4).map fun p =>
                (.cons (String.mk k) v p.1, p.2)
            | '}' :: r4 => some (.cons (String.mk k) v .nil, r4)
            | _ => none
        | _ => none
    | _ => none

end

/-- `json.loads` over decoded text: one JSON value, with only whitespace
allowed after it (`json.loads` raises "Extra data" otherwise); `none`
models the raised `JSONDecodeError`. -/
def parseJson (s : List Char) : Option Json :=
  match parseVal (2 * s.length + 8) s with
  | some (v, r) => if skipWs r = [] then some v else none
  | none => none

/-! ## `read_frame` (push.py lines 95-131)

```python
def read_frame(sock):
    try:
        sock.settimeout(30)
        first_byte, second_byte = struct.unpack("!BB", sock.recv(2))
        opcode = first_byte & 0x0F
        masked = second_byte >> 7
        payload_length = second_byte & 0x7F
        if payload_length == 126:
            payload_length = struct.unpack("!H", sock.recv(2))[0]
        elif payload_length == 127:
            payload_length = struct.unpack("!Q", sock.recv(8))[0]
        mask = sock.recv(4) if masked else None
        payload = bytearray(sock.recv(payload_length))
        if masked and mask:
            for i in range(payload_length):
                payload[i] ^= mask[i % 4]
        if opcode != 1:  # Not a text frame
            return None
        message = payload.decode("utf-8", errors="ignore")
        data = json.loads(message)
        created = data.get("created", 0)
        if created and created in received_timestamps:
            return None  # Ignore duplicate messages
        received_timestamps.add(created)
        return message
    except (socket.timeout, ConnectionResetError, BrokenPipeError):
        return None  # Ignore expected connection errors
    except Exception:
        return None  # Ignore other errors silently
```

The socket is modelled as the byte list it will deliver; `recv(n)` returns
up to `n` bytes.  A blocking read with nothing left to deliver ends in one
of `socket.timeout` / `ConnectionResetError` / `BrokenPipeError` / EOF
(`b""`, making `struct.unpack` raise) — every one of these is caught and
collapses to `None`, so the model needs no distinction: any read that
cannot produce the bytes `struct.unpack` needs yields `none`.  The mask
read and the payload read return short without raising, exactly as
`recv` may; a short masked payload then raises `IndexError` inside the
unmask loop (caught: `none`). -/

/-- The unmask loop `for i in range(payload_length): payload[i] ^= mask[i % 4]`:
`none` models the `IndexError` raised when `payload` or `mask` is too
short for an index the loop touches. -/
def unmaskGo (mask : List Nat) : Nat → Nat → List Nat → Option (List Nat)
  | _, 0, rest => some rest
  | _, _ + 1, [] => none
  | i, n + 1, b :: rest =>
    match mask[i % 4]? with
    | none => none
    | some m => (unmaskGo mask (i + 1) n rest).map fun tl => (b ^^^ m) :: tl

/-- Lines 99-114: frame header, extended length, mask and payload reads,
and the unmask loop; returns the opcode and the (unmasked) payload bytes,
or `none` when the Python code would raise (always caught by line 128-131
into a `None` return). -/
def extractFrame (s : List Nat) : Option (Nat × List Nat) :=
  match s with
  | b0 :: b1 :: r0 =>
    let opcode := b0 % 16
    let masked := b1 / 128
    let len7 := b1 % 128
    let step : Option (Nat × List Nat) :=
      if len7 = 126 then
        match r0 with
        | c0 :: c1 :: r1 => some (c0 * 256 + c1, r1)
        | _ => none
      else if len7 = 127 then
        match r0 with
        | c0 :: c1 :: c2 :: c3 :: c4 :: c5 :: c6 :: c7 :: r1 =>
          some (((((((c0 * 256 + c1) * 256 + c2) * 256 + c3) * 256 + c4) * 256
            + c5) * 256 + c6) * 256 + c7, r1)
        | _ => none
      else some (len7, r0)
    match step with
    | none => none
    | some (plen, r1) =>
      let mask := if masked = 1 then r1.take 4 else []
      let r2 := if masked = 1 then r1.drop 4 else r1
      let payload := r2.take plen
      if masked = 1 ∧ mask ≠ [] then
        (unmaskGo mask 0 plen payload).map fun p => (opcode, p)
      else some (opcode, payload)
  | _ => none

/-- `read_frame` (lines 95-131): the returned message (or `None`) together
with the updated `received_timestamps` state. -/
def read_frame (s : List Nat) (ts : List Json) : Option String × List Json :=
  match extractFrame s with
  | none => (none, ts)
  | some (opcode, payload) =>
    if opcode ≠ 1 then (none, ts)
    else
      match parseJson (utf8Ignore payload) with
      | none => (none, ts)
      | some (.obj fs) =>
        let created := pyGetD fs "created" (Json.num 0)
        if truthy created ∧ created ∈ ts then (none, ts)
        else (some (String.mk (utf8Ignore payload)), tsInsert ts created)
      | some _ => (none, ts)

/-- An unmasked text frame whose payload is the 14 ASCII bytes of
`'\x7b"created": 0\x7d'` (a JSON object with `created` equal to `0`). -/
def zeroCreatedFrame : List Nat :=
  [129, 14, 123, 34, 99, 114, 101, 97, 116, 101, 100, 34, 58, 32, 48, 125]

/-! ## The WebSocket upgrade handshake (push.py lines 59-85)

```python
def create_websocket_connection():
    key = base64.b64encode(os.urandom(16)).decode()
    expected_accept = base64.b64encode(
        hashlib.sha1((key.encode() + b"258EAFA5-E914-47DA-95CA-C5AB0DC85B11")).digest()
    ).decode()
    ...
    response = ssl_sock.recv(1024).decode('utf-8', errors='ignore')
    if "101 Switching Protocols" not in response or expected_accept not in response:
        ssl_sock.close()
        return None
    return ssl_sock
```

The key (base64 of 16 random bytes) and the received response text are
external inputs, so the model takes them as parameters; SHA-1 and base64
are implemented below (words are `Nat` reduced mod `2^32`). -/

def rotl32 (n x : Nat) : Nat :=
  ((x <<< n) % 4294967296) ||| (x >>> (32 - n))

def natToBytesBE : Nat → Nat → List Nat
  | 0, _ => []
  | m + 1, v => natToBytesBE m (v / 256) ++ [v % 256]

/-- SHA-1 padding: `0x80`, zeros to 56 mod 64, then the 8-byte big-endian
bit length. -/
def sha1Pad (msg : List Nat) : List Nat :=
  let z := (120 - ((msg.length + 1) % 64)) % 64
  msg ++ [128] ++ List.replicate z 0 ++ natToBytesBE 8 (msg.length * 8)

def bytesToWords : List Nat → List Nat
  | a :: b :: c :: d :: r => (((a * 256 + b) * 256 + c) * 256 + d) :: bytesToWords r
  | _ => []

/-- The SHA-1 message schedule, extending 16 words to 80; `acc` holds the
words emitted so far, newest first. -/
def sha1Extend : Nat → List Nat → List Nat
  | 0, acc => acc
  | k + 1, acc =>
    let w := rotl32 1 ((acc.getD 2 0) ^^^ (acc.getD 7 0) ^^^ (acc.getD 13 0) ^^^ (acc.getD 15 0))
    sha1Extend k (w :: acc)

def sha1F (t b c d : Nat) : Nat :=
  if t < 20 then (b &&& c) ||| ((b ^^^ 4294967295) &&& d)
  else if t < 40 then b ^^^ c ^^^ d
  else if t < 60 then (b &&& c) ||| (b &&& d) ||| (c &&& d)
  else b ^^^ c ^^^ d

def sha1K (t : Nat) : Nat :=
  if t < 20 then 1518500249
  else if t < 40 then 1859775393
  else if t < 60 then 2400959708
  else 3395469782

def sha1Rounds : Nat → List Nat → Nat × Nat × Nat × Nat × Nat → Nat × Nat × Nat × Nat × Nat
  | _, [], st => st
  | t, w :: ws, (a, b, c, d, e) =>
    let tmp := (rotl32 5 a + sha1F t b c d + e + sha1K t + w) % 4294967296
    sha1Rounds (t + 1) ws (tmp, a, rotl32 30 b, c, d)

def sha1BlocksGo : Nat → List Nat → Nat × Nat × Nat × Nat × Nat → Nat × Nat × Nat × Nat × Nat
  | 0, _, h => h
  | n + 1, bytes, (h0, h1, h2, h3, h4) =>
    let ws16 := bytesToWords (bytes.take 64)
    let wsAll := (sha1Extend 64 ws16.reverse).reverse
    let r := sha1Rounds 0 wsAll (h0, h1, h2, h3, h4)
    sha1BlocksGo n (bytes.drop 64)
      ((h0 + r.1) % 4294967296, (h1 + r.2.1) % 4294967296, (h2 + r.2.2.1) % 4294967296,
        (h3 + r.2.2.2.1) % 4294967296, (h4 + r.2.2.2.2) % 4294967296)

def sha1 (msg : List Nat) : List Nat :=
  let padded := sha1Pad msg
  let f := sha1BlocksGo (padded.length / 64) padded
    (1732584193, 4023233417, 2562383102, 271733878, 3285377520)
  natToBytesBE 4 f.1 ++ natToBytesBE 4 f.2.1 ++ natToBytesBE 4 f.2.2.1
    ++ natToBytesBE 4 f.2.2.2.1 ++ natToBytesBE 4 f.2.2.2.2

def b64Char (n : Nat) : Char :=
  "ABCDEFGHIJKLMNOPQRSTUVWXYZabcdefghijklmnopqrstuvwxyz0123456789+/".data.getD n 'A'

def b64Go : List Nat → List Char
  | [] => []
  | [a] => [b64Char (a / 4), b64Char ((a % 4) * 16), '=', '=']
  | [a, b] => [b64Char (a / 4), b64Char ((a % 4) * 16 + b / 16), b64Char ((b % 16) * 4), '=']
  | a :: b :: c :: r =>
    b64Char (a / 4) :: b64Char ((a % 4) * 16 + b / 16)
      :: b64Char ((b % 16) * 4 + c / 64) :: b64Char (c % 64) :: b64Go r

def b64encode (l : List Nat) : String :=
  String.mk (b64Go l)

def utf8EncodeChar (c : Char) : List Nat :=
  if c.toNat < 128 then [c.toNat]
  else if c.toNat < 2048 then [192 + c.toNat / 64, 128 + c.toNat % 64]
  else if c.toNat < 65536 then
    [224 + c.toNat / 4096, 128 + (c.toNat / 64) % 64, 128 + c.toNat % 64]
  else
    [240 + c.toNat / 262144, 128 + (c.toNat / 4096) % 64,
      128 + (c.toNat / 64) % 64, 128 + c.toNat % 64]

def utf8Encode (s : String) : List Nat :=
  s.data.foldr (fun c acc => utf8EncodeChar c ++ acc) []

/-- Lines 61-64: the expected accept token —
`base64.b64encode(hashlib.sha1(key.encode() + GUID).digest()).decode()`. -/
def compute_expected_accept (key : String) : String :=
  b64encode (sha1 (utf8Encode key ++ utf8Encode "258EAFA5-E914-47DA-95CA-C5AB0DC85B11"))

def isPrefixL : List Char → List Char → Bool
  | [], _ => true
  | _ :: _, [] => false
  | a :: as, b :: bs => a = b && isPrefixL as bs

def containsSubL (needle : List Char) : List Char → Bool
  | [] => isPrefixL needle []
  | c :: rest => isPrefixL needle (c :: rest) || containsSubL needle rest

/-- Python `needle in haystack` on strings (substring containment). -/
def containsSub (haystack needle : String) : Bool :=
  containsSubL needle.data haystack.data

/-- Lines 80-85: the acceptance check and result of
`create_websocket_connection`, given the client key and the decoded
response text; `some ()` is the open session, `none` the rejected one. -/
def create_websocket_connection (key response : String) : Option Unit :=
  if ¬ containsSub response "101 Switching Protocols" = true
      ∨ ¬ containsSub response (compute_expected_accept key) = true then none
  else some ()

/-- Stated from the spec's words (not from the code), for comparison with
the code's check: the response carries a `Sec-WebSocket-Accept` header
line whose value exactly equals the expected accept token. -/
def headerExactlyMatches (response expected : String) : Bool :=
  containsSub response ("Sec-WebSocket-Accept: " ++ expected ++ "\r\n")

/-- The RFC 6455 example client key; its accept token is
`s3pPLMBiTxaQ9kYGzzhZRbK+xOo=`, which `compute_expected_accept`
reproduces (checked in the theorems below). -/
def demoKey : String := "dGhlIHNhbXBsZSBub25jZQ=="

/-- A forged 101 response whose `Sec-WebSocket-Accept` header holds a wrong
value but which smuggles the correct accept token into another header. -/
def forgedUpgradeResponse (key : String) : String :=
  "HTTP/1.1 101 Switching Protocols\r\nUpgrade: websocket\r\nSec-WebSocket-Accept: WRONG\r\nX-Echo: "
    ++ compute_expected_accept key ++ "\r\n\r\n"

/-! ## Theorems -/

theorem runProc_nil (pick : List Json → Nat) (s : ProcState) :
    runProc pick s [] = (s, []) := rfl

theorem runProc_cons (pick : List Json → Nat) (s : ProcState) (c : Call)
    (cs : List Call) :
    runProc pick s (c :: cs) =
      ((runProc pick (procStep pick s c).1 cs).1,
        (procStep pick s c).2.toList ++ (runProc pick (procStep pick s c).1 cs).2) := rfl

theorem procStep_mem (pick : List Json → Nat) (s : ProcState) (c : Call)
    (h : c.id ∈ s.pids) : procStep pick s c = (s, none) := by
  simp [procStep, h]

theorem procStep_not_mem (pick : List Json → Nat) (s : ProcState) (c : Call)
    (h : c.id ∉ s.pids) : (procStep pick s c).2 = some c := by
  simp [procStep, h]

/-- Core dedup lemma: if the id `x` is in `processed_ids` at every state the
run passes through, no delivery with id `x` happens in that run. -/
theorem countDelivered_zero_of_retained (pick : List Json → Nat)
    (x : Json) :
    ∀ (calls : List Call) (s : ProcState),
      (∀ n : Nat, x ∈ (runProc pick s (calls.take n)).1.pids) →
      countDelivered x (runProc pick s calls).2 = 0 := by
  intro calls
  induction calls with
  | nil =>
    intro s _
    simp [runProc, countDelivered]
  | cons c cs ih =>
    intro s h
    have hx0 : x ∈ s.pids := by
      have := h 0
      simpa [runProc] using this
    have hstate : ∀ n : Nat,
        x ∈ (runProc pick (procStep pick s c).1 (cs.take n)).1.pids := by
      intro n
      have := h (n + 1)
      simpa [runProc_cons] using this
    have htail := ih (procStep pick s c).1 hstate
    rw [runProc_cons]
    by_cases hc : c.id ∈ s.pids
    · rw [procStep_mem pick s c hc] at htail ⊢
      simpa [countDelivered] using htail
    · have hne : c.id ≠ x := fun he => hc (he ▸ hx0)
      have hd : (procStep pick s c).2 = some c := procStep_not_mem pick s c hc
      simpa [countDelivered, hd, hne] using htail

/--
C1: for every interleaving of `process_message` calls arriving from the
stream path (`handle_push_data`) and the fetch path (`fetch_new_pushes`),
(1) as long as an id `x` stays inside the bounded `processed_ids` window at
every state of the run, the sink receives no further delivery with that id,
and (2) the first record whose id is not yet in the window is delivered to
the sink exactly then (the call emits exactly that delivery).
-/
theorem at_most_once_per_id_in_window (pick : List Json → Nat)
    (s : ProcState) (x : Json) :
    (∀ calls : List Call,
        (∀ n : Nat, x ∈ (runProc pick s (calls.take n)).1.pids) →
        countDelivered x (runProc pick s calls).2 = 0)
    ∧ (x ∉ s.pids → ∀ content ts src,
        (procStep pick s ⟨x, content, ts, src⟩).2 = some ⟨x, content, ts, src⟩) := by
  constructor
  · intro calls h
    exact countDelivered_zero_of_retained pick x calls s h
  · intro hx content ts src
    exact procStep_not_mem pick s ⟨x, content, ts, src⟩ hx

/-- Witness for C1 at concrete inputs: with `processed_ids = {"a"}`, a run
that re-sends id `"a"` delivers nothing, and a fresh id `"b"` is delivered
exactly when first seen. -/
theorem at_most_once_per_id_in_window_witness :
    countDelivered (Json.str "a")
        (runProc (fun _ => 0) ⟨[Json.str "a"]⟩
          [⟨Json.str "a", Json.str "hello", Json.num 5, ""⟩]).2 = 0
    ∧ (procStep (fun _ => 0) ⟨[Json.str "a"]⟩
          ⟨Json.str "b", Json.str "hi", Json.num 6, ""⟩).2 =
        some ⟨Json.str "b", Json.str "hi", Json.num 6, ""⟩ := by
  constructor
  · exact (at_most_once_per_id_in_window (fun _ => 0) ⟨[Json.str "a"]⟩ (Json.str "a")).1
      [⟨Json.str "a", Json.str "hello", Json.num 5, ""⟩]
      (by intro n; cases n <;> simp [runProc, procStep])
  · exact (at_most_once_per_id_in_window (fun _ => 0) ⟨[Json.str "a"]⟩ (Json.str "b")).2
      (by decide) (Json.str "hi") (Json.num 6) ""

theorem mem_tsInsert {ts : List Json} {x y : Json}
    (h : y ∈ tsInsert ts x) : y = x ∨ y ∈ ts := by
  by_cases hx : x ∈ ts
  · exact Or.inr (by simpa [tsInsert, hx] using h)
  · rcases (by simpa [tsInsert, hx] using h : y = x ∨ y ∈ ts) with h' | h'
    · exact Or.inl h'
    · exact Or.inr h'

theorem pumpTimestamps_mem_le {n : Nat} {q : Rat}
    (h : Json.num q ∈ pumpTimestamps n) : q ≤ (n : Rat) := by
  induction n with
  | zero => simp [pumpTimestamps] at h
  | succ m ih =>
    rcases mem_tsInsert h with h' | h'
    · cases h'
      push_cast
      linarith
    · have := ih h'
      have hm : (m : Rat) ≤ (m : Rat) + 1 := by linarith
      push_cast
      linarith

theorem pumpTimestamps_length (n : Nat) : (pumpTimestamps n).length = n := by
  induction n with
  | zero => rfl
  | succ m ih =>
    have hfresh : Json.num ((m : Rat) + 1) ∉ pumpTimestamps m := by
      intro hmem
      have := pumpTimestamps_mem_le hmem
      linarith
    simp [pumpTimestamps, tsInsert, hfresh, ih]

/--
C4 counterexample: the claim says `received_timestamps` holds at most 1000
entries at all times, but after the stream gate admits 1001 distinct
nonzero timestamps the set holds 1001 entries — the source never evicts
from `received_timestamps` (only `processed_ids` is size-limited).
-/
theorem bounded_windows_counterexample :
    1000 < (pumpTimestamps 1001).length := by
  rw [pumpTimestamps_length]
  decide

/--
C4 (amended): only `seenIds` (`processed_ids`) is capacity-bounded: it
holds at most 1000 entries after every `process_message` call, and an
insertion at capacity evicts exactly one retained entry (the source does
not specify which one: `next(iter(set))`).  `recentTimestamps`
(`received_timestamps`) is unbounded: admitting `n` distinct nonzero
timestamps grows it to exactly `n` entries for every `n`.
-/
theorem bounded_seenIds_unbounded_timestamps (pick : List Json → Nat)
    (s : ProcState) (c : Call) :
    (s.pids.length ≤ 1000 → ((procStep pick s c).1).pids.length ≤ 1000)
    ∧ (s.pids.length = 1000 → c.id ∉ s.pids →
        ((procStep pick s c).1).pids.length = 1000)
    ∧ (∀ n : Nat, (pumpTimestamps n).length = n) := by
  have hkey : ∀ l : List Json, l ≠ [] →
      (evictIfOver pick l).length =
        if MAX_PROCESSED_IDS < l.length then l.length - 1 else l.length := by
    intro l hne
    unfold evictIfOver
    split
    · have hpos : pick l % l.length < l.length :=
        Nat.mod_lt _ (List.length_pos.mpr hne)
      have := List.length_eraseIdx_add_one hpos
      simp only [if_pos ‹MAX_PROCESSED_IDS < l.length›] at *
      omega
    · simp [*]
  refine ⟨?_, ?_, pumpTimestamps_length⟩
  · intro hle
    by_cases hc : c.id ∈ s.pids
    · simpa [procStep, hc] using hle
    · have h1 := hkey (c.id :: s.pids) (by simp)
      simp only [procStep, hc, if_false]
      rw [h1]
      simp only [MAX_PROCESSED_IDS, List.length_cons]
      split <;> omega
  · intro hlen hc
    have h1 := hkey (c.id :: s.pids) (by simp)
    simp only [procStep, hc, if_false]
    rw [h1]
    simp only [MAX_PROCESSED_IDS, List.length_cons, hlen]
    norm_num

/-- Witness for C4 (amended) at concrete inputs: one `process_message` call
from the empty window keeps the id window within the bound, an insertion at
a (tiny, for concreteness degenerate) state behaves, and pumping 3
timestamps gives 3 entries. -/
theorem bounded_seenIds_unbounded_timestamps_witness :
    ((procStep (fun _ => 0) ⟨[]⟩
        ⟨Json.str "x", Json.null, Json.num 1, ""⟩).1).pids.length ≤ 1000
    ∧ (pumpTimestamps 3).length = 3 := by
  constructor
  · exact (bounded_seenIds_unbounded_timestamps (fun _ => 0) ⟨[]⟩
      ⟨Json.str "x", Json.null, Json.num 1, ""⟩).1 (by decide)
  · exact (bounded_seenIds_unbounded_timestamps (fun _ => 0) ⟨[]⟩
      ⟨Json.str "x", Json.null, Json.num 1, ""⟩).2.2 3

theorem consecutiveFailures_seven (k : Nat) :
    consecutiveFailures (k + 7) RECONNECT_DELAY = .exited := rfl

/--
C3 counterexample: the claim says that no number of consecutive connection
failures ever makes the loop or the process exit, but starting from the
initial backoff of 5 seconds the 7th consecutive failure finds
`backoff_time = 300 >= max_backoff` and leaves the loop (the dead-code
remark in the spec is wrong: that branch is reachable).
-/
theorem supervisor_retry_forever_counterexample :
    consecutiveFailures 7 RECONNECT_DELAY = SupOutcome.exited := by decide

/--
C3 (amended): the supervisor loop survives up to 6 consecutive connection
failures (backoff 5, 10, 20, 40, 80, 160, reaching the 300 cap) and
terminates on the 7th consecutive failure, when the entry backoff has
reached `max_backoff`: `n` consecutive failures from the initial delay end
the loop exactly when `7 ≤ n`.
-/
theorem supervisor_exits_on_seventh_failure (n : Nat) :
    consecutiveFailures n RECONNECT_DELAY = SupOutcome.exited ↔ 7 ≤ n := by
  constructor
  · intro h
    by_contra hlt
    push_neg at hlt
    interval_cases n <;> exact absurd h (by decide)
  · intro h
    obtain ⟨k, rfl⟩ : ∃ k, n = k + 7 := ⟨n - 7, by omega⟩
    exact consecutiveFailures_seven k

/--
C6 counterexample: the claim says the stream path (`handle_push_data`)
labels a channel broadcast `"<sender_name>: \n<title>"`, but on a concrete
channel push with sender `"S"` and title `"T"` the stream path produces
`"Channel: S"` (and it is the fetch path that produces `"S: \nT"`): the
claim has the two formats swapped between the call sites.
-/
theorem channel_label_counterexample :
    (handle_push_data "D1" demoChannelPush).map Call.source = some "Channel: S"
    ∧ (fetchNormalize "D1" demoChannelPush).map Call.source = some "S: \nT"
    ∧ ("Channel: S" : String) ≠ "S: \nT" := by
  refine ⟨rfl, rfl, by decide⟩

/--
C6 (amended): for every raw push whose `channel_iden` is truthy, the stream
path (`handle_push_data`) labels the event `"Channel: <sender_name>"` and
the fetch path (`fetch_new_pushes`) labels it `"<sender_name>: \n<title>"`;
each call site keeps its own format.
-/
theorem channel_label_per_origin (deviceId : String) (push : JsonFields)
    (h : truthy (pyGetD push "channel_iden" (Json.str "")) = true) :
    (handle_push_data deviceId push).map Call.source =
      some ("Channel: " ++ fstr (pyGetD push "sender_name" (Json.str "Unknown Sender")))
    ∧ (fetchNormalize deviceId push).map Call.source =
      some (fstr (pyGetD push "sender_name" (Json.str "Unknown Sender")) ++ ": \n"
        ++ fstr (pyGetD push "title" (Json.str ""))) := by
  constructor
  · simp [handle_push_data, streamSource, h]
  · simp [fetchNormalize, fetchSource, h]

/-- Witness for C6 (amended) at the concrete channel push. -/
theorem channel_label_per_origin_witness :
    (handle_push_data "D1" demoChannelPush).map Call.source = some "Channel: S"
    ∧ (fetchNormalize "D1" demoChannelPush).map Call.source = some "S: \nT" := by
  have h := channel_label_per_origin "D1" demoChannelPush (by decide)
  constructor
  · rw [h.1]; decide
  · rw [h.2]; decide

theorem pyOr_strOpt {v : Json} {s : String} (h : strOpt v s) (d : Json) :
    pyOr v d = if s ≠ "" then Json.str s else d := by
  rcases h with h | ⟨h, hs⟩
  · subst h
    by_cases hs : s = "" <;> simp [pyOr, truthy, hs]
  · subst h; subst hs
    simp [pyOr, truthy]

theorem pyOrChain_eq_firstNonEmpty {push : JsonFields} {b u f : String}
    (hb : strOpt (pyGet push "body") b)
    (hu : strOpt (pyGet push "url") u)
    (hf : strOpt (pyGet push "file_url") f) :
    pyOrChain push = firstNonEmpty b u f := by
  unfold pyOrChain firstNonEmpty
  rw [pyOr_strOpt hf, pyOr_strOpt hu, pyOr_strOpt hb]

/--
C9: for every raw push without a (truthy) `channel_iden`, on both paths:
if `target_device_iden` equals the own device id the event's source is
`""`; if it is absent (Python `None`) the source is `"All Devices"`;
otherwise the record is skipped entirely (nothing delivered).  And every
delivered event's content is the first non-empty of the text fields
`body`, `url`, `file_url`, with fallback literal `"No message"`.
-/
theorem device_filter_and_content (deviceId : String) (push : JsonFields) :
    (truthy (pyGetD push "channel_iden" (Json.str "")) = false →
      (pyGet push "target_device_iden" = Json.str deviceId →
        (handle_push_data deviceId push).map Call.source = some ""
        ∧ (fetchNormalize deviceId push).map Call.source = some "")
      ∧ (pyGet push "target_device_iden" = Json.null →
        (handle_push_data deviceId push).map Call.source = some "All Devices"
        ∧ (fetchNormalize deviceId push).map Call.source = some "All Devices")
      ∧ (pyGet push "target_device_iden" ≠ Json.str deviceId →
          pyGet push "target_device_iden" ≠ Json.null →
        handle_push_data deviceId push = none
        ∧ fetchNormalize deviceId push = none))
    ∧ (∀ b u f : String,
        strOpt (pyGet push "body") b →
        strOpt (pyGet push "url") u →
        strOpt (pyGet push "file_url") f →
        ∀ c : Call,
          (handle_push_data deviceId push = some c
            ∨ fetchNormalize deviceId push = some c) →
          c.content = firstNonEmpty b u f) := by
  constructor
  · intro hch
    refine ⟨?_, ?_, ?_⟩
    · intro ht
      constructor
      · simp [handle_push_data, streamSource, hch, ht]
      · simp [fetchNormalize, fetchSource, hch, ht]
    · intro ht
      by_cases heq : Json.null = Json.str deviceId
      · cases heq
      constructor
      · simp [handle_push_data, streamSource, hch, ht, heq]
      · simp [fetchNormalize, fetchSource, hch, ht, heq]
    · intro ht hn
      constructor
      · simp [handle_push_data, streamSource, hch, ht, hn]
      · simp [fetchNormalize, fetchSource, hch, ht, hn]
  · intro b u f hb hu hf c hc
    have hcontent : c.content = pyOrChain push := by
      rcases hc with hc | hc
      · unfold handle_push_data at hc
        rcases hsrc : streamSource deviceId push with _ | src <;> rw [hsrc] at hc
        · cases hc
        · cases hc; rfl
      · unfold fetchNormalize at hc
        rcases hsrc : fetchSource deviceId push with _ | src <;> rw [hsrc] at hc
        · cases hc
        · cases hc; rfl
    rw [hcontent, pyOrChain_eq_firstNonEmpty hb hu hf]

/-- Witness for C9 at concrete inputs, covering all three routing cases and
the content rule. -/
theorem device_filter_and_content_witness :
    (handle_push_data "D1" (demoPushTo (Json.str "D1"))).map Call.source = some ""
    ∧ (handle_push_data "D1" (demoPushTo Json.null)).map Call.source = some "All Devices"
    ∧ handle_push_data "D1" (demoPushTo (Json.str "D2")) = none
    ∧ (⟨Json.str "abc", Json.str "hello", Json.num 100, "All Devices"⟩ : Call).content
        = firstNonEmpty "hello" "" "" := by
  refine ⟨?_, ?_, ?_, ?_⟩
  · exact (((device_filter_and_content "D1" (demoPushTo (Json.str "D1"))).1
      (by decide)).1 (by decide)).1
  · exact (((device_filter_and_content "D1" (demoPushTo Json.null)).1
      (by decide)).2.1 (by decide)).1
  · exact (((device_filter_and_content "D1" (demoPushTo (Json.str "D2"))).1
      (by decide)).2.2 (by decide) (by decide)).1
  · exact (device_filter_and_content "D1" (demoPushTo Json.null)).2
      "hello" "" "" (Or.inl rfl) (Or.inr ⟨rfl, rfl⟩) (Or.inr ⟨rfl, rfl⟩)
      ⟨Json.str "abc", Json.str "hello", Json.num 100, "All Devices"⟩
      (Or.inl (by decide))

theorem fetchStep_watermark_mono (deviceId : String) (pick : List Json → Nat)
    (lastTs : Rat) (acc : Rat × ProcState × List Call) (p : Rat × JsonFields) :
    acc.1 ≤ (fetchStep deviceId pick lastTs acc p).1 := by
  unfold fetchStep
  split
  · exact le_refl _
  · rcases fetchNormalize deviceId p.2 with _ | call
    · exact le_refl _
    · exact le_max_left _ _

theorem foldl_fetchStep_watermark_mono (deviceId : String)
    (pick : List Json → Nat) (lastTs : Rat) :
    ∀ (l : List (Rat × JsonFields)) (acc : Rat × ProcState × List Call),
      acc.1 ≤ (l.foldl (fetchStep deviceId pick lastTs) acc).1 := by
  intro l
  induction l with
  | nil => intro acc; exact le_refl _
  | cons p ps ih =>
    intro acc
    exact le_trans (fetchStep_watermark_mono deviceId pick lastTs acc p)
      (ih (fetchStep deviceId pick lastTs acc p))

/--
C2: the stored fetch watermark is monotonically non-decreasing: whenever
`fetch_new_pushes` completes a pass and saves a watermark — including for
an empty batch and for a batch whose records are all stale
(`created <= w`) or inactive — the saved value is at least the previously
stored value `w` (`max` semantics; it never moves backward).
-/
theorem watermark_monotone (deviceId : String) (pick : List Json → Nat)
    (w : Rat) (pushes : List Json) (s : ProcState) (r : FetchResult)
    (h : fetch_new_pushes deviceId pick w pushes s = some r) :
    w ≤ r.watermark := by
  unfold fetch_new_pushes at h
  rcases hm : pushes.mapM createdKey with _ | ps <;> rw [hm] at h
  · cases h
  · have := foldl_fetchStep_watermark_mono deviceId pick w
      (sortByCreated ps) (w, s, [])
    cases h
    exact this

/-- Witness for C2: an all-stale concrete batch (one inactive push, one
push at the stored watermark) saves exactly the prior watermark 100. -/
theorem watermark_monotone_witness :
    fetch_new_pushes "D1" (fun _ => 0) 100
        [Json.obj (.cons "created" (Json.num 100) .nil),
         Json.obj (.cons "created" (Json.num 250)
           (.cons "active" (Json.bool false) .nil))] ⟨[]⟩
      = some ⟨100, ⟨[]⟩, []⟩
    ∧ (100 : Rat) ≤ (100 : Rat) := by
  constructor
  · decide
  · exact watermark_monotone "D1" (fun _ => 0) 100
      [Json.obj (.cons "created" (Json.num 100) .nil),
       Json.obj (.cons "created" (Json.num 250)
         (.cons "active" (Json.bool false) .nil))] ⟨[]⟩ ⟨100, ⟨[]⟩, []⟩
      (by decide)

/-- With both sinks succeeding, `procStepExc` is exactly `procStep`. -/
theorem procStepExc_ok (pick : List Json → Nat) (s : ProcState) (c : Call) :
    procStepExc none none pick s c = .ok (procStep pick s c) := by
  unfold procStepExc procStep
  by_cases hc : c.id ∈ s.pids <;> simp [hc]

/--
C10 counterexample: the claim says an error raised by the sink inside
`process_message` is absorbed locally and does not tear down the WebSocket
connection, but a failing `notify-send` on a fresh push propagates out of
`process_message` as an exception, and the supervisor's handler then tears
the connection down (closes the socket and reconnects after backoff)
instead of continuing on the open connection.
-/
theorem sink_error_absorbed_counterexample :
    procStepExc (some "FileNotFoundError: notify-send") none (fun _ => 0)
        ⟨[]⟩ ⟨Json.str "abc", Json.str "hello", Json.num 100, ""⟩
      = .error ("FileNotFoundError: notify-send", ⟨[]⟩)
    ∧ superviseBody RECONNECT_DELAY
        (procStepExc (some "FileNotFoundError: notify-send") none (fun _ => 0)
          ⟨[]⟩ ⟨Json.str "abc", Json.str "hello", Json.num 100, ""⟩)
      = .reconnectAfterBackoff 10
    ∧ LoopStep.reconnectAfterBackoff 10 ≠ .continueConnected := by
  refine ⟨rfl, rfl, by decide⟩

/-- With both sinks succeeding, the fallible fetch loop step is exactly
the pure `fetchStep`. -/
theorem fetchStepExc_ok_sinks (deviceId : String) (pick : List Json → Nat)
    (lastTs : Rat) (acc : Rat × ProcState × List Call) (p : Rat × JsonFields) :
    fetchStepExc none none deviceId pick lastTs acc p
      = .ok (fetchStep deviceId pick lastTs acc p) := by
  unfold fetchStepExc fetchStep
  split
  · rfl
  · rcases h : fetchNormalize deviceId p.2 with _ | call
    · rfl
    · simp [procStepExc_ok]

/-- With both sinks succeeding, the fallible fetch loop is the pure fold. -/
theorem fetchRunExc_ok_sinks (deviceId : String) (pick : List Json → Nat)
    (lastTs : Rat) :
    ∀ (l : List (Rat × JsonFields)) (acc : Rat × ProcState × List Call),
      fetchRunExc none none deviceId pick lastTs l acc
        = .ok (l.foldl (fetchStep deviceId pick lastTs) acc) := by
  intro l
  induction l with
  | nil => intro acc; rfl
  | cons p ps ih =>
    intro acc
    rw [List.foldl_cons]
    unfold fetchRunExc
    rw [fetchStepExc_ok_sinks]
    exact ih (fetchStep deviceId pick lastTs acc p)

/-- With both sinks succeeding, the fallible `fetch_new_pushes` is the
pure one. -/
theorem fetch_new_pushes_exc_ok_sinks (deviceId : String)
    (pick : List Json → Nat) (lastTs : Rat) (pushes : List Json)
    (s : ProcState) :
    fetch_new_pushes_exc none none deviceId pick lastTs pushes s
      = fetch_new_pushes deviceId pick lastTs pushes s := by
  unfold fetch_new_pushes_exc fetchTryBody fetch_new_pushes
  rcases hm : pushes.mapM createdKey with _ | ps
  · rfl
  · simp [fetchRunExc_ok_sinks]

/--
C10 (amended): an error raised by either sink call inside
`process_message` (the notification dispatch or the cache append) on a
not-yet-seen push propagates out of `process_message` with `processed_ids`
unchanged (the id stays unrecorded); what happens next depends on the path
that made the call.  Stream path (`handle_push_data`, called from
`main_loop`'s inner loop): `main_loop`'s `except Exception` catches it,
closes the socket, and — while the backoff is below the 300-second cap —
sleeps and reconnects, so the WebSocket connection is torn down though the
supervisor loop continues (at the cap the same error instead ends the
loop).  Fetch path (`process_message` called inside `fetch_new_pushes`'
own `try`): the `except` on line 183 catches it there; the reconciliation
pass aborts with no watermark saved, `fetch_new_pushes` returns normally,
`main_loop` never sees the error, and the connected loop continues with
the WebSocket connection intact.
-/
theorem sink_error_propagation_per_path (e : String)
    (pick : List Json → Nat) (s : ProcState) (c : Call) (b : Nat)
    (hc : c.id ∉ s.pids) :
    (procStepExc (some e) none pick s c = .error (e, s)
      ∧ procStepExc none (some e) pick s c = .error (e, s))
    ∧ (b < MAX_BACKOFF →
        superviseBody b (procStepExc (some e) none pick s c)
          = .reconnectAfterBackoff (min (b * 2) MAX_BACKOFF))
    ∧ (MAX_BACKOFF ≤ b →
        superviseBody b (procStepExc (some e) none pick s c) = .exitLoop)
    ∧ (∀ (notifyExc appendExc : Option String) (d : String) (w : Rat)
          (pushes : List Json) (s0 : ProcState),
        (∀ err, fetchTryBody notifyExc appendExc d pick w pushes s0 = .error err →
          fetch_new_pushes_exc notifyExc appendExc d pick w pushes s0 = none)
        ∧ superviseBody b
            (Except.ok (ε := String × ProcState)
              (fetch_new_pushes_exc notifyExc appendExc d pick w pushes s0))
          = .continueConnected) := by
  have herr : procStepExc (some e) none pick s c = .error (e, s) := by
    simp [procStepExc, hc]
  refine ⟨⟨herr, by simp [procStepExc, hc]⟩, ?_, ?_, ?_⟩
  · intro hb
    rw [herr]
    simp [superviseBody, onConnectFailure, Nat.not_le.mpr hb]
  · intro hb
    rw [herr]
    simp [superviseBody, onConnectFailure, hb]
  · intro notifyExc appendExc d w pushes s0
    constructor
    · intro err h
      unfold fetch_new_pushes_exc
      rw [h]
    · rfl

/-- Witness for C10 (amended) at concrete inputs: a fresh push whose
notification dispatch fails.  Stream path: at backoff 5 the connection is
torn down and re-established (backoff 10), at backoff 300 the loop exits.
Fetch path: on a concrete one-push batch the sink error is caught inside
`fetch_new_pushes` — nothing is saved, the call returns normally, and the
loop stays connected. -/
theorem sink_error_propagation_per_path_witness :
    procStepExc (some "boom") none (fun _ => 0) ⟨[]⟩
        ⟨Json.str "i", Json.null, Json.num 1, ""⟩ = .error ("boom", ⟨[]⟩)
    ∧ superviseBody 5 (procStepExc (some "boom") none (fun _ => 0) ⟨[]⟩
        ⟨Json.str "i", Json.null, Json.num 1, ""⟩) = .reconnectAfterBackoff 10
    ∧ superviseBody 300 (procStepExc (some "boom") none (fun _ => 0) ⟨[]⟩
        ⟨Json.str "i", Json.null, Json.num 1, ""⟩) = .exitLoop
    ∧ fetch_new_pushes_exc (some "boom") none "D1" (fun _ => 0) 0
        [Json.obj (.cons "iden" (Json.str "i") (.cons "created" (Json.num 5) .nil))]
        ⟨[]⟩ = none
    ∧ superviseBody 5
        (Except.ok (ε := String × ProcState)
          (fetch_new_pushes_exc (some "boom") none "D1" (fun _ => 0) 0
            [Json.obj (.cons "iden" (Json.str "i") (.cons "created" (Json.num 5) .nil))]
            ⟨[]⟩))
      = .continueConnected := by
  have h := sink_error_propagation_per_path "boom" (fun _ => 0) ⟨[]⟩
    ⟨Json.str "i", Json.null, Json.num 1, ""⟩ 5 (by decide)
  have h300 := sink_error_propagation_per_path "boom" (fun _ => 0) ⟨[]⟩
    ⟨Json.str "i", Json.null, Json.num 1, ""⟩ 300 (by decide)
  refine ⟨h.1.1, h.2.1 (by decide), h300.2.2.1 (by decide), ?_, ?_⟩
  · exact (h.2.2.2 (some "boom") none "D1" 0
      [Json.obj (.cons "iden" (Json.str "i") (.cons "created" (Json.num 5) .nil))]
      ⟨[]⟩).1 ("boom", ⟨[]⟩) rfl
  · exact (h.2.2.2 (some "boom") none "D1" 0
      [Json.obj (.cons "iden" (Json.str "i") (.cons "created" (Json.num 5) .nil))]
      ⟨[]⟩).2

/--
C7 counterexample: the claim says the stream gate does not admit a message
whose `created` is 0, but on a concrete frame carrying `created = 0` and an
empty `received_timestamps`, `read_frame` returns the message (admits it)
and inserts `0` into the set: the gate's test `if created and created in
received_timestamps` short-circuits on falsy `created`, so zero/absent
timestamps are always admitted.
-/
theorem zero_created_admitted_counterexample :
    (read_frame zeroCreatedFrame []).1.isSome = true
    ∧ (read_frame zeroCreatedFrame []).2 = [Json.num 0] := by
  constructor
  · decide
  · decide

/--
C7 (amended): for every frame that decodes to a JSON object, the stream
gate admits the message iff its `created` value is falsy (zero, absent, or
otherwise untruthy) or not already in `recentTimestamps`; every admitted
message's `created` value — including a zero/absent one — is inserted into
the set as a side effect, and a rejected message leaves the set unchanged.
-/
theorem stream_gate_characterization (s : List Nat) (ts : List Json)
    (payload : List Nat) (fs : JsonFields)
    (hf : extractFrame s = some (1, payload))
    (hp : parseJson (utf8Ignore payload) = some (.obj fs)) :
    ((read_frame s ts).1.isSome ↔
      (truthy (pyGetD fs "created" (Json.num 0)) = false
        ∨ pyGetD fs "created" (Json.num 0) ∉ ts))
    ∧ ((read_frame s ts).1.isSome →
        (read_frame s ts).2 = tsInsert ts (pyGetD fs "created" (Json.num 0)))
    ∧ ((read_frame s ts).1.isSome = false → (read_frame s ts).2 = ts) := by
  have hrw : read_frame s ts =
      (if truthy (pyGetD fs "created" (Json.num 0)) ∧ pyGetD fs "created" (Json.num 0) ∈ ts
        then (none, ts)
        else (some (String.mk (utf8Ignore payload)),
          tsInsert ts (pyGetD fs "created" (Json.num 0)))) := by
    simp [read_frame, hf, hp]
  by_cases hg : truthy (pyGetD fs "created" (Json.num 0)) = true
      ∧ pyGetD fs "created" (Json.num 0) ∈ ts
  · rw [hrw, if_pos hg]
    refine ⟨?_, ?_, ?_⟩
    · constructor
      · intro h
        exact absurd h (by simp)
      · rintro (h | h)
        · rw [hg.1] at h; cases h
        · exact absurd hg.2 h
    · intro h
      exact absurd h (by simp)
    · intro _; rfl
  · rw [hrw, if_neg hg]
    refine ⟨?_, ?_, ?_⟩
    · simp only [Option.isSome_some, true_iff]
      rcases not_and_or.mp hg with h | h
      · exact Or.inl (by simpa using h)
      · exact Or.inr h
    · intro _; rfl
    · intro h
      exact absurd h (by simp)

/-- Witness for C7 (amended): the zero-`created` frame against an empty
set is admitted and `0` is inserted. -/
theorem stream_gate_characterization_witness :
    (read_frame zeroCreatedFrame []).1.isSome = true
    ∧ (read_frame zeroCreatedFrame []).2 = tsInsert [] (Json.num 0) := by
  have h := stream_gate_characterization zeroCreatedFrame []
    [123, 34, 99, 114, 101, 97, 116, 101, 100, 34, 58, 32, 48, 125]
    (.cons "created" (Json.num 0) .nil) (by decide) (by decide)
  have hadm : (read_frame zeroCreatedFrame []).1.isSome = true :=
    h.1.mpr (Or.inl rfl)
  exact ⟨hadm, by simpa using h.2.1 hadm⟩

/--
C8: `read_frame` is total at its boundary: for every modelled input stream
it returns a message or `None` and never raises; it returns `None` (with
`received_timestamps` untouched) when fewer than 2 header bytes are
deliverable (read timeout, reset, broken pipe, EOF), when frame extraction
fails for any other reason, for any non-text opcode, and for any decode
failure of the payload.
-/
theorem read_frame_total_on_faults (s : List Nat) (ts : List Json) :
    ((read_frame s ts).1 = none ∨ ∃ m, (read_frame s ts).1 = some m)
    ∧ (s.length < 2 → read_frame s ts = (none, ts))
    ∧ (extractFrame s = none → read_frame s ts = (none, ts))
    ∧ (∀ opcode payload, extractFrame s = some (opcode, payload) →
        opcode ≠ 1 → read_frame s ts = (none, ts))
    ∧ (∀ payload, extractFrame s = some (1, payload) →
        parseJson (utf8Ignore payload) = none → read_frame s ts = (none, ts)) := by
  refine ⟨?_, ?_, ?_, ?_, ?_⟩
  · rcases h : (read_frame s ts).1 with _ | m
    · exact Or.inl rfl
    · exact Or.inr ⟨m, rfl⟩
  · intro hlen
    have hex : extractFrame s = none := by
      match s with
      | [] => rfl
      | [b0] => rfl
      | b0 :: b1 :: r => exact absurd hlen (by simp)
    simp [read_frame, hex]
  · intro hex
    simp [read_frame, hex]
  · intro opcode payload hex hop
    simp [read_frame, hex, hop]
  · intro payload hex hp
    simp [read_frame, hex, hp]

/-- Witness for C8 at concrete inputs: the empty stream (nothing readable),
a ping frame (opcode 9), and a text frame whose payload `"not json"` fails
to decode — all return `None` and leave the state unchanged. -/
theorem read_frame_total_on_faults_witness :
    read_frame [] [Json.num 7] = (none, [Json.num 7])
    ∧ read_frame [137, 0] [] = (none, [])
    ∧ read_frame [129, 8, 110, 111, 116, 32, 106, 115, 111, 110] [] = (none, []) := by
  refine ⟨?_, ?_, ?_⟩
  · exact (read_frame_total_on_faults [] [Json.num 7]).2.1 (by decide)
  · exact (read_frame_total_on_faults [137, 0] []).2.2.2.1 9 [] (by decide) (by decide)
  · exact (read_frame_total_on_faults [129, 8, 110, 111, 116, 32, 106, 115, 111, 110]
      []).2.2.2.2 [110, 111, 116, 32, 106, 115, 111, 110] (by decide) (by decide)

set_option maxRecDepth 40000 in
/--
C5 counterexample: the claim says the upgrade fails unless the response's
`Sec-WebSocket-Accept` header exactly matches the expected accept value,
but the code only checks substring containment anywhere in the response: a
forged response whose `Sec-WebSocket-Accept` header is `WRONG` yet which
contains the accept token in an unrelated header is accepted
(`create_websocket_connection` returns a session).
-/
theorem handshake_exact_match_counterexample :
    create_websocket_connection demoKey (forgedUpgradeResponse demoKey) = some ()
    ∧ headerExactlyMatches (forgedUpgradeResponse demoKey)
        (compute_expected_accept demoKey) = false
    ∧ compute_expected_accept demoKey = "s3pPLMBiTxaQ9kYGzzhZRbK+xOo=" := by
  refine ⟨by decide, by decide, by decide⟩

/--
C5 (amended): the connection upgrade returns no session unless the
response contains both the literal `"101 Switching Protocols"` and the
expected accept value — SHA-1 of the client key concatenated with the
fixed GUID, base64-encoded — as substrings; in particular every forged
response lacking the exact computed accept value is rejected.  The check
is substring containment, not exact `Sec-WebSocket-Accept` header
matching.
-/
theorem handshake_requires_accept_substring (key response : String) :
    (containsSub response (compute_expected_accept key) = false →
      create_websocket_connection key response = none)
    ∧ (containsSub response "101 Switching Protocols" = false →
      create_websocket_connection key response = none)
    ∧ (containsSub response "101 Switching Protocols" = true →
        containsSub response (compute_expected_accept key) = true →
        create_websocket_connection key response = some ()) := by
  refine ⟨?_, ?_, ?_⟩
  · intro h
    simp [create_websocket_connection, h]
  · intro h
    simp [create_websocket_connection, h]
  · intro h1 h2
    simp [create_websocket_connection, h1, h2]

set_option maxRecDepth 40000 in
/-- Witness for C5 (amended): with the RFC 6455 example key, a 403
response without the accept token is rejected, a 101 response without the
accept token is rejected, and a well-formed 101 response carrying it is
accepted. -/
theorem handshake_requires_accept_substring_witness :
    create_websocket_connection demoKey "HTTP/1.1 403 Forbidden\r\n\r\n" = none
    ∧ create_websocket_connection demoKey
        "HTTP/1.1 101 Switching Protocols\r\nUpgrade: websocket\r\n\r\n" = none
    ∧ create_websocket_connection demoKey
        ("HTTP/1.1 101 Switching Protocols\r\nSec-WebSocket-Accept: s3pPLMBiTxaQ9kYGzzhZRbK"
          ++ "+xOo=\r\n\r\n") = some () := by
  refine ⟨?_, ?_, ?_⟩
  · exact (handshake_requires_accept_substring demoKey
      "HTTP/1.1 403 Forbidden\r\n\r\n").1 (by decide)
  · exact (handshake_requires_accept_substring demoKey
      "HTTP/1.1 101 Switching Protocols\r\nUpgrade: websocket\r\n\r\n").1 (by decide)
  · exact (handshake_requires_accept_substring demoKey
      ("HTTP/1.1 101 Switching Protocols\r\nSec-WebSocket-Accept: s3pPLMBiTxaQ9kYGzzhZRbK"
        ++ "+xOo=\r\n\r\n")).2.2 (by decide) (by decide)

end PushNotifier
